import Mathlib

/-!
Verification of `src/pages/api/getImagesAndInferences.ts`.

The file shallowly embeds the TypeScript source: JavaScript strings are
`String` (all data here is ASCII, where JS UTF-16 code-unit order coincides
with `Char` order), JS millisecond time values are `Int`, and thrown
exceptions are `Except String`.  All date arithmetic is UTC (the source pins
the current time to UTC via `utcToZonedTime(new Date(), 'UTC')` and the
server clock; no other timezone conversion happens).
-/

namespace CheckDataTool

/-! ## JavaScript string primitives -/

/-- `s.slice(a, b)` for `0 ≤ a ≤ b` (the only way the source calls it):
the substring from index `a` (inclusive) to `b` (exclusive), clamped to the
string length. -/
def jsSlice (s : String) (a b : Nat) : String :=
  ⟨(s.data.drop a).take (b - a)⟩

/-- Numeric value of a list of decimal digit characters, most significant
first. -/
def ofDigitsNat (l : List Char) : Nat :=
  l.foldl (fun acc c => 10 * acc + (c.toNat - 48)) 0

/-- `Number(s)` on its two decided sub-domains: the empty string converts
to `0` and a string of decimal digits converts to its value — exactly as
in JS.  Everything else is mapped to `NaN` (`none`).  JS `Number` also
accepts whitespace-trimmed, signed, fractional, exponent and hex forms
(`Number("12.3") = 12.3`, `Number("0x10") = 16`); those are NOT modelled,
so every theorem below either quantifies only over digit-slice inputs
(where this model is exact) or evaluates concrete literals such as the
slices of "not-a-date", whose leading slice `"not-"` is `NaN` in JS too.
No theorem asserts failure of the program on the unmodelled forms. -/
def jsNumber (s : String) : Option Int :=
  if s.data.isEmpty then some 0
  else if s.data.all Char.isDigit then some (Int.ofNat (ofDigitsNat s.data)) else none

/-- The WhiteSpace and LineTerminator code points `parseInt` trims. -/
def isJsWhitespace (c : Char) : Bool :=
  [0x09, 0x0a, 0x0b, 0x0c, 0x0d, 0x20, 0xa0, 0x1680, 0x2028, 0x2029,
    0x202f, 0x205f, 0x3000, 0xfeff].contains c.toNat
  || (0x2000 ≤ c.toNat && c.toNat ≤ 0x200a)

/-- Value of the longest leading run of decimal digits, `NaN` (`none`)
when there is none. -/
def jsParseIntDigits (l : List Char) : Option Int :=
  if (l.takeWhile Char.isDigit).isEmpty then none
  else some (Int.ofNat (ofDigitsNat (l.takeWhile Char.isDigit)))

/-- `parseInt(s, 10)` — the source always passes radix 10, so the grammar
is: optional leading whitespace, optional single sign, then the longest
run of decimal digits (`NaN` if empty).  Exact except for the
double-precision rounding JS applies beyond 2^53, far outside an image
count. -/
def jsParseInt (s : String) : Option Int :=
  match s.data.dropWhile isJsWhitespace with
  | '-' :: rest => (jsParseIntDigits rest).map (fun v => -v)
  | '+' :: rest => jsParseIntDigits rest
  | t => jsParseIntDigits t

/-- Does `l` start with `p`? -/
def startsList : List Char → List Char → Bool
  | [], _ => true
  | _ :: _, [] => false
  | p :: ps, c :: cs => p = c && startsList ps cs

/-- `s.replace(pat, '')` with a plain-string pattern: JS `String.replace`
removes only the FIRST occurrence of `pat`. -/
def replaceFirstList (pat : List Char) : List Char → List Char
  | [] => []
  | c :: cs =>
    if startsList pat (c :: cs) then (c :: cs).drop pat.length
    else c :: replaceFirstList pat cs

/-- `name.replace('.jpg', '')` generalized to any plain-string pattern. -/
def jsReplaceFirst (s pat : String) : String :=
  ⟨replaceFirstList pat.data s.data⟩

/-- JS `<` on strings: lexicographic comparison of code units.  All strings
compared by the source are ASCII, where code units coincide with `Char`
scalar values. -/
def charListLtb : List Char → List Char → Bool
  | [], [] => false
  | [], _ :: _ => true
  | _ :: _, [] => false
  | a :: as, b :: bs =>
    if a < b then true
    else if b < a then false
    else charListLtb as bs

/-- JS string comparison `s < t`. -/
def jsStrLtb (s t : String) : Bool := charListLtb s.data t.data

/-! ## ECMAScript time values

A JS time value is a count of milliseconds since the epoch (an `Int` here;
JS `Date` additionally clips to ±8.64e15 and has a NaN "Invalid Date" value,
which this embedding represents with `Option Int` at the call sites that
can produce it).  `jsTimeMs` is MakeDay/MakeTime of the ECMAScript
specification: the constructor `new Date(y, m, d, h, mi, s, ms)` with
arbitrary (rolling-over) component values.  `civilYear`/`civilMonth`/
`civilDay` are YearFromTime/MonthFromTime/DateFromTime: the Gregorian
calendar fields of a day number, computed by era decomposition (146097-day
cycles of 400 years), year-of-era by bounded search against cumulative year
lengths, and the standard March-based month formula.  `Int` division `/`
and `%` round toward −∞ / yield nonnegative remainders, matching the
specification's floor and modulo operations for the positive divisors used
here. -/

/-- ECMAScript DayFromYear: day number of 1 January of year `y`. -/
def dayFromYear (y : Int) : Int :=
  365 * (y - 1970) + (y - 1969) / 4 - (y - 1901) / 100 + (y - 1601) / 400

/-- ECMAScript InLeapYear. -/
def isLeap (y : Int) : Bool :=
  (y % 4 = 0 && y % 100 ≠ 0) || y % 400 = 0

/-- Days in year `y` before the (zero-indexed, in-range) month `m`. -/
def daysBeforeMonth (leap : Bool) (m : Int) : Int :=
  (if 2 ≤ m && leap then 1 else 0) +
  (if m ≤ 0 then 0 else if m = 1 then 31 else if m = 2 then 59
   else if m = 3 then 90 else if m = 4 then 120 else if m = 5 then 151
   else if m = 6 then 181 else if m = 7 then 212 else if m = 8 then 243
   else if m = 9 then 273 else if m = 10 then 304 else 334)

/-- ECMAScript MakeDay: month overflow/underflow rolls into the year. -/
def makeDay (y m d : Int) : Int :=
  dayFromYear (y + m / 12) + daysBeforeMonth (isLeap (y + m / 12)) (m % 12) + (d - 1)

/-- ECMAScript MakeFullYear: the `Date` constructor reads a year argument
of 0–99 as 1900+year. -/
def makeFullYear (y : Int) : Int :=
  if 0 ≤ y ∧ y ≤ 99 then 1900 + y else y

/-- Time value of `new Date(y, m, d, h, mi, s, ms)` (UTC). -/
def jsTimeMs (y m d h mi s ms : Int) : Int :=
  makeDay (makeFullYear y) m d * 86400000 + h * 3600000 + mi * 60000 + s * 1000 + ms

/-- Days from civil epoch (0000-03-01 shifted) up to March-based
year-of-era `y`; the running total of 365/366-day year lengths. -/
def daysToYearOfEra (y : Int) : Int :=
  365 * y + y / 4 - y / 100 + y / 400

/-- Year of era of a day-of-era `doe ∈ [0, 146097)`: underestimate by
`doe / 366`, then bump once if the next year already started. -/
def yoeOf (doe : Int) : Int :=
  if daysToYearOfEra (doe / 366 + 1) ≤ doe then doe / 366 + 1 else doe / 366

def eraOf (z : Int) : Int := (z + 719468) / 146097

def doeOf (z : Int) : Int := (z + 719468) % 146097

/-- Day within the March-based year. -/
def doyOf (doe : Int) : Int := doe - daysToYearOfEra (yoeOf doe)

/-- March-based month index (0 = March … 11 = February). -/
def mpOf (doy : Int) : Int := (5 * doy + 2) / 153

/-- Day of month. -/
def mdayOf (doy : Int) : Int := doy - (153 * mpOf doy + 2) / 5 + 1

/-- Calendar month (1–12) from the March-based index. -/
def monthFromMp (mp : Int) : Int := if mp < 10 then mp + 3 else mp - 9

/-- Calendar month of day number `z`. -/
def civilMonth (z : Int) : Int := monthFromMp (mpOf (doyOf (doeOf z)))

/-- Calendar year of day number `z`. -/
def civilYear (z : Int) : Int :=
  if civilMonth z ≤ 2 then eraOf z * 400 + yoeOf (doeOf z) + 1
  else eraOf z * 400 + yoeOf (doeOf z)

/-- Day of month of day number `z`. -/
def civilDay (z : Int) : Int := mdayOf (doyOf (doeOf z))

/-- ECMAScript Day(t). -/
def dayFromTime (t : Int) : Int := t / 86400000

/-- ECMAScript HourFromTime. -/
def hourFromTime (t : Int) : Int := (t / 3600000) % 24

/-- ECMAScript MinFromTime. -/
def minFromTime (t : Int) : Int := (t / 60000) % 60

/-! ## Decimal rendering (date-fns `format` tokens `yyyy MM dd HH mm`) -/

/-- Exactly `w` decimal digits of `n`, zero padded (`n < 10^w` wherever
used). -/
def digitsFixed : Nat → Nat → List Char
  | 0, _ => []
  | w + 1, n => digitsFixed w (n / 10) ++ [Nat.digitChar (n % 10)]

/-- All decimal digits of `n` (fuel-driven; the fuel `n+1` always
suffices since `n / 10 < n` for `n ≥ 10`). -/
def natDigitsAux : Nat → Nat → List Char
  | 0, _ => []
  | fuel + 1, n =>
    if n < 10 then [Nat.digitChar n]
    else natDigitsAux fuel (n / 10) ++ [Nat.digitChar (n % 10)]

def natDigits (n : Nat) : List Char := natDigitsAux (n + 1) n

/-- A format token of width `w`: zero-pad to `w` digits, never truncate. -/
def padDigits (w n : Nat) : List Char :=
  if n < 10 ^ w then digitsFixed w n else natDigits n

/-- `format(t, 'yyyyMMddHHmm')` of a time value, UTC.  (Negative calendar
years cannot arise under the four-digit-year hypotheses of the theorems
below; `Int.toNat` clamps them.) -/
def formatMinute (t : Int) : String :=
  ⟨padDigits 4 (civilYear (dayFromTime t)).toNat ++
   (padDigits 2 (civilMonth (dayFromTime t)).toNat ++
    (padDigits 2 (civilDay (dayFromTime t)).toNat ++
     (padDigits 2 (hourFromTime t).toNat ++
      padDigits 2 (minFromTime t).toNat)))⟩

/-! ## The source's timestamp parse and query window -/

/-- `convertTimestampToDate` (source lines 33–44): fixed-offset slices of
widths 4,2,2,2,2,2,3, each converted by `Number`, the month decremented,
fed to the `Date` constructor.  In JS a `NaN` component yields an Invalid
Date whose formatting throws; here that is `none`. -/
def convertTimestampToDate (timestamp : String) : Option Int :=
  match jsNumber (jsSlice timestamp 0 4), jsNumber (jsSlice timestamp 4 6),
        jsNumber (jsSlice timestamp 6 8), jsNumber (jsSlice timestamp 8 10),
        jsNumber (jsSlice timestamp 10 12), jsNumber (jsSlice timestamp 12 14),
        jsNumber (jsSlice timestamp 14 17) with
  | some y, some mo, some d, some h, some mi, some s, some ms =>
      some (jsTimeMs y (mo - 1) d h mi s ms)
  | _, _, _, _, _, _, _ => none

/-- The message thrown by the `catch` around the window computation. -/
def dirNameErrMsg : String :=
  "Cannot parse image directory name. Check that the directory name is correct date format."

/-- Source lines 71–88: startTime, the 10-hours-later candidate, the
current timestamp, and the string-compared minimum as endTime.  The `try`
block fails exactly when formatting the parsed directory name throws
(Invalid Date). -/
def resolveWindow (outputSubDir : String) (nowMs : Int) :
    Except String (String × String) :=
  match convertTimestampToDate outputSubDir with
  | none => .error dirNameErrMsg
  | some startMs =>
      .ok (formatMinute startMs,
        if jsStrLtb (formatMinute (startMs + 10 * 60 * 60 * 1000)) (formatMinute nowMs)
        then formatMinute (startMs + 10 * 60 * 60 * 1000)
        else formatMinute nowMs)

/-! ## The retrieval pipeline

`getImageAndInference` (source lines 56–143) drives an external Console
client.  The client's two capabilities, the current clock, the success of
client construction, and the payload decoding step are the environment of
one request, bundled in `ConsoleEnv`: remote calls are modelled as total
functions giving the resolved value of each awaited promise. -/

structure ImageEntry where
  name : String
  contents : String
deriving DecidableEq

structure ImagesPayload where
  images : List ImageEntry
deriving DecidableEq

/-- Resolved value of `client.insight.getImages(...)`; the source reads
`imageData.data.images` with no status check. -/
structure GetImagesResponse where
  data : ImagesPayload
deriving DecidableEq

/-- One element of `inference_result.Inferences`; `O` is the base64
detection payload, `none` when the key is absent. -/
structure InferenceItem where
  O : Option String
deriving DecidableEq

structure InferenceResult where
  Inferences : List InferenceItem
deriving DecidableEq

structure InferenceDataEntry where
  inference_result : InferenceResult
deriving DecidableEq

/-- `resInference.response.data`: the remote-supplied message thrown on a
non-success status. -/
structure ResponseEnvelope where
  data : String
deriving DecidableEq

/-- Resolved value of `client.insight.getInferenceResults(...)`. -/
structure GetInferenceResponse where
  status : Int
  response : ResponseEnvelope
  data : List InferenceDataEntry
deriving DecidableEq

structure OutputRecord where
  image : String
  inferenceData : String
  timestamp : String
deriving DecidableEq

/-- The environment of one request.  `getImages` takes deviceId, sub
directory, numberOfImages, skip, orderBy, startTime, endTime exactly as the
source passes them (`numberOfImages` is `Option Int` because `parseInt` can
produce `NaN`).  `deserializePayload` models
`JSON.stringify(deserializeObjectDetection(Buffer.from(payload, 'base64')))`.
Modelled from the spec: `deserializeObjectDetection`
(src/utils/ObjectDetection/deserialize) is repository code not present
under src/; per spec §4.3 it is an external, pure, deterministic decoding
function that throws on malformed buffers, so the composite step is an
opaque pure function returning the serialized detections or a failure
message. -/
structure ConsoleEnv where
  configOk : Bool
  nowMs : Int
  getImages : String → String → Option Int → Int → String → String → String → GetImagesResponse
  getInferenceResults : String → Option String → Int → Int → String → GetInferenceResponse
  deserializePayload : String → Except String String

def wrongSettingMsg : String := "Wrong setting. Check the settings."

def noInferenceMsg : String := "Cannot get inference results."

/-- Node's TypeError message for `Inferences[0].O` when `Inferences` is
empty: the element access yields `undefined` and reading `.O` throws. -/
def typeErrMsg : String := "Cannot read properties of undefined (reading 'O')"

/-- One iteration of the source's `for` loop (lines 107–141): timestamp and
data-URI from the image entry, one inference lookup, the status check, the
emptiness/payload checks, then decode.  JS truthiness makes both a missing
`O` and an empty-string `O` fail the `!...O` test. -/
def processOne (env : ConsoleEnv) (deviceId : String) (inputTensor : ImageEntry) :
    Except String OutputRecord :=
  let timestamp := jsReplaceFirst inputTensor.name ".jpg"
  let base64Img := "data:image/jpg;base64," ++ inputTensor.contents
  let resInference := env.getInferenceResults deviceId none 1 1 timestamp
  if resInference.status ≠ 200 then .error resInference.response.data
  else
    match resInference.data with
    | [] => .error noInferenceMsg
    | entry :: _ =>
      match entry.inference_result.Inferences with
      | [] => .error typeErrMsg
      | item :: _ =>
        match item.O with
        | none => .error noInferenceMsg
        | some payload =>
          if payload = "" then .error noInferenceMsg
          else
            match env.deserializePayload payload with
            | .error msg => .error msg
            | .ok inferenceData =>
              .ok { image := base64Img, inferenceData := inferenceData, timestamp := timestamp }

/-- The loop over `imageData.data.images`: sequential, first failure aborts
the whole call, otherwise one output record per image in listing order. -/
def processImages (env : ConsoleEnv) (deviceId : String) :
    List ImageEntry → Except String (List OutputRecord)
  | [] => .ok []
  | img :: rest =>
    match processOne env deviceId img with
    | .error e => .error e
    | .ok r =>
      match processImages env deviceId rest with
      | .error e => .error e
      | .ok l => .ok (r :: l)

/-- `getImageAndInference` (lines 56–143): client construction, window
resolution, image listing with `skip = 0`, `orderBy = 'DESC'`, then the
loop. -/
def getImageAndInference (env : ConsoleEnv) (deviceId outputSubDir : String)
    (numberOfImages : Option Int) : Except String (List OutputRecord) :=
  if !env.configOk then .error wrongSettingMsg
  else
    match resolveWindow outputSubDir env.nowMs with
    | .error e => .error e
    | .ok (startTime, endTime) =>
      processImages env deviceId
        ((env.getImages deviceId outputSubDir numberOfImages 0 "DESC" startTime endTime).data.images)

/-! ## The boundary adapter (`handler`, lines 156–181) -/

structure ApiQuery where
  deviceId : Option String
  imagePath : Option String
  numberOfImages : Option String
deriving DecidableEq

structure ApiRequest where
  method : String
  query : ApiQuery
deriving DecidableEq

inductive ApiBody where
  | message (m : String)
  | records (l : List OutputRecord)
deriving DecidableEq

/-- JS truthiness of an optional query-string value: `undefined` and the
empty string are falsy. -/
def truthy : Option String → Bool
  | none => false
  | some s => s ≠ ""

/-- The request handler: 405 on a non-GET method, 400 on a falsy
`deviceId`, defaults for the optional parameters, then the pipeline mapped
to 200/500.  The thrown `Error` objects of `getImageAndInference` carry no
`response` property, so the catch always reports `err.message`. -/
def handler (env : ConsoleEnv) (req : ApiRequest) : Int × ApiBody :=
  if req.method ≠ "GET" then
    (405, .message "The API server only accepts GET requests.")
  else if !truthy req.query.deviceId then
    (400, .message "Device ID is not specified.")
  else
    match getImageAndInference env
        (if truthy req.query.deviceId then req.query.deviceId.getD "" else "")
        (if truthy req.query.imagePath then req.query.imagePath.getD "" else "")
        (if truthy req.query.numberOfImages then jsParseInt (req.query.numberOfImages.getD "")
         else some 5) with
    | .ok result => (200, .records result)
    | .error e => (500, .message e)

/-! ## Concrete environments used by the closed instance theorems -/

/-- Two images in listing order; the inference lookup for the second one
resolves with status 500 (the spec's scenario), the first one succeeds. -/
def c2Env : ConsoleEnv where
  configOk := true
  nowMs := 1674800000000
  getImages := fun _ _ _ _ _ _ _ =>
    ⟨⟨[⟨"20230126052344873.jpg", "AAA"⟩, ⟨"20230126053344873.jpg", "BBB"⟩]⟩⟩
  getInferenceResults := fun _ _ _ _ ts =>
    if ts = "20230126053344873" then ⟨500, ⟨"remote failure message"⟩, []⟩
    else ⟨200, ⟨"unused"⟩, [⟨⟨[⟨some "UEFZ"⟩]⟩⟩]⟩
  deserializePayload := fun s => .ok ("[payload:" ++ s ++ "]")

/-- A device with zero images in the window. -/
def c3Env : ConsoleEnv where
  configOk := true
  nowMs := 1674800000000
  getImages := fun _ _ _ _ _ _ _ => ⟨⟨[]⟩⟩
  getInferenceResults := fun _ _ _ _ _ => ⟨200, ⟨""⟩, []⟩
  deserializePayload := fun _ => .error "unused"

/-- One image whose remote filename contains '.jpg' in the middle as well
as at the end; every remote call succeeds. -/
def c4Env : ConsoleEnv where
  configOk := true
  nowMs := 1674800000000
  getImages := fun _ _ _ _ _ _ _ => ⟨⟨[⟨".jpg20230101.jpg", "xx"⟩]⟩⟩
  getInferenceResults := fun _ _ _ _ _ => ⟨200, ⟨""⟩, [⟨⟨[⟨some "QQ"⟩]⟩⟩]⟩
  deserializePayload := fun _ => .ok "[]"

/-- The spec's fully successful scenario: two images in descending listing
order, every remote call succeeding. -/
def demoEnv : ConsoleEnv where
  configOk := true
  nowMs := 1674800000000
  getImages := fun _ _ _ _ _ _ _ =>
    ⟨⟨[⟨"20230126053344873.jpg", "BBB"⟩, ⟨"20230126052344873.jpg", "AAA"⟩]⟩⟩
  getInferenceResults := fun _ _ _ _ _ => ⟨200, ⟨"unused"⟩, [⟨⟨[⟨some "UEFZ"⟩]⟩⟩]⟩
  deserializePayload := fun s => .ok ("[payload:" ++ s ++ "]")

/-- One image; its inference lookup succeeds with status 200 but an empty
result set. -/
def c8Env : ConsoleEnv where
  configOk := true
  nowMs := 1674800000000
  getImages := fun _ _ _ _ _ _ _ => ⟨⟨[⟨"20230126052344873.jpg", "AAA"⟩]⟩⟩
  getInferenceResults := fun _ _ _ _ _ => ⟨200, ⟨"unused"⟩, []⟩
  deserializePayload := fun _ => .error "unused"

/-! ## Properties of the processing loop -/

theorem processOne_fields (env : ConsoleEnv) (deviceId : String) (img : ImageEntry)
    (r : OutputRecord) (h : processOne env deviceId img = .ok r) :
    r.timestamp = jsReplaceFirst img.name ".jpg" ∧
    r.image = "data:image/jpg;base64," ++ img.contents := by
  unfold processOne at h
  simp only [] at h
  split at h
  · exact Except.noConfusion h
  · split at h
    · exact Except.noConfusion h
    · split at h
      · exact Except.noConfusion h
      · split at h
        · exact Except.noConfusion h
        · split at h
          · exact Except.noConfusion h
          · split at h
            · exact Except.noConfusion h
            · cases h; exact ⟨rfl, rfl⟩

theorem processImages_append_ok (env : ConsoleEnv) (deviceId : String)
    (pre l : List ImageEntry) (rs : List OutputRecord)
    (h : processImages env deviceId pre = .ok rs) :
    processImages env deviceId (pre ++ l) =
      (processImages env deviceId l).map (fun t => rs ++ t) := by
  induction pre generalizing rs with
  | nil =>
    simp only [processImages] at h
    cases h
    simp only [List.nil_append]
    cases processImages env deviceId l <;> simp [Except.map]
  | cons x xs ih =>
    rw [List.cons_append]
    simp only [processImages] at h ⊢
    cases hx : processOne env deviceId x with
    | error e => rw [hx] at h; cases h
    | ok r =>
      rw [hx] at h
      cases hxs : processImages env deviceId xs with
      | error e => rw [hxs] at h; cases h
      | ok ts =>
        rw [hxs] at h
        cases h
        rw [ih ts hxs]
        cases processImages env deviceId l <;> simp [Except.map]

theorem processImages_ok_shape (env : ConsoleEnv) (deviceId : String)
    (l : List ImageEntry) (out : List OutputRecord)
    (h : processImages env deviceId l = .ok out) :
    out.length = l.length ∧
    ∀ i (hi : i < out.length) (hl : i < l.length),
      (out.get ⟨i, hi⟩).timestamp = jsReplaceFirst (l.get ⟨i, hl⟩).name ".jpg" ∧
      (out.get ⟨i, hi⟩).image = "data:image/jpg;base64," ++ (l.get ⟨i, hl⟩).contents := by
  induction l generalizing out with
  | nil =>
    simp only [processImages] at h
    cases h
    exact ⟨rfl, fun i hi hl => absurd hl (by simp)⟩
  | cons x xs ih =>
    simp only [processImages] at h
    cases hx : processOne env deviceId x with
    | error e => rw [hx] at h; cases h
    | ok r =>
      rw [hx] at h
      cases hxs : processImages env deviceId xs with
      | error e => rw [hxs] at h; cases h
      | ok ts =>
        rw [hxs] at h
        cases h
        obtain ⟨hlen, hfields⟩ := ih ts hxs
        refine ⟨by simpa using hlen, ?_⟩
        intro i hi hl
        match i with
        | 0 => exact processOne_fields env deviceId x r hx
        | i + 1 =>
          exact hfields i (by simpa using hi) (by simpa using hl)

theorem processOne_bad_status (env : ConsoleEnv) (deviceId : String) (img : ImageEntry)
    (h : (env.getInferenceResults deviceId none 1 1 (jsReplaceFirst img.name ".jpg")).status ≠ 200) :
    processOne env deviceId img =
      .error (env.getInferenceResults deviceId none 1 1 (jsReplaceFirst img.name ".jpg")).response.data := by
  unfold processOne
  simp only []
  rw [if_pos h]

theorem processOne_data_nil (env : ConsoleEnv) (deviceId : String) (img : ImageEntry)
    (r : GetInferenceResponse)
    (hr : env.getInferenceResults deviceId none 1 1 (jsReplaceFirst img.name ".jpg") = r)
    (hstatus : r.status = 200) (hd : r.data = []) :
    processOne env deviceId img = .error noInferenceMsg := by
  unfold processOne
  simp only []
  rw [hr, if_neg (by simp [hstatus]), hd]

theorem processOne_O_absent (env : ConsoleEnv) (deviceId : String) (img : ImageEntry)
    (r : GetInferenceResponse) (entry : InferenceDataEntry) (tl : List InferenceDataEntry)
    (item : InferenceItem) (tl2 : List InferenceItem)
    (hr : env.getInferenceResults deviceId none 1 1 (jsReplaceFirst img.name ".jpg") = r)
    (hstatus : r.status = 200) (hd : r.data = entry :: tl)
    (hi : entry.inference_result.Inferences = item :: tl2)
    (hO : item.O = none ∨ item.O = some "") :
    processOne env deviceId img = .error noInferenceMsg := by
  unfold processOne
  simp only []
  rw [hr, if_neg (by simp [hstatus]), hd]
  simp only [hi]
  rcases hO with h | h <;> simp [h]

theorem processOne_O_present (env : ConsoleEnv) (deviceId : String) (img : ImageEntry)
    (r : GetInferenceResponse) (entry : InferenceDataEntry) (tl : List InferenceDataEntry)
    (item : InferenceItem) (tl2 : List InferenceItem) (payload : String)
    (hr : env.getInferenceResults deviceId none 1 1 (jsReplaceFirst img.name ".jpg") = r)
    (hstatus : r.status = 200) (hd : r.data = entry :: tl)
    (hi : entry.inference_result.Inferences = item :: tl2)
    (hO : item.O = some payload) (hne : payload ≠ "") :
    processOne env deviceId img = (env.deserializePayload payload).map
      (fun d => ⟨"data:image/jpg;base64," ++ img.contents, d, jsReplaceFirst img.name ".jpg"⟩) := by
  unfold processOne
  simp only []
  rw [hr, if_neg (by simp [hstatus]), hd]
  simp only [hi, hO, if_neg hne]
  cases env.deserializePayload payload <;> rfl

theorem getImageAndInference_eq (env : ConsoleEnv) (deviceId outputSubDir : String)
    (numberOfImages : Option Int) (startTime endTime : String)
    (hcfg : env.configOk = true)
    (hwin : resolveWindow outputSubDir env.nowMs = .ok (startTime, endTime)) :
    getImageAndInference env deviceId outputSubDir numberOfImages =
      processImages env deviceId
        ((env.getImages deviceId outputSubDir numberOfImages 0 "DESC" startTime endTime).data.images) := by
  unfold getImageAndInference
  rw [hcfg, hwin]
  rfl

/-! ## Claims C2, C3, C4, C8 -/

/-- C2: whenever the sequential loop reaches an image (all earlier images
having been processed successfully) whose inference lookup resolves with a
status other than 200, the whole retrieval returns the error carrying the
remote response's message (`resInference.response.data`); no output list —
in particular no partial list of the earlier results — is returned. -/
theorem c2_nonsuccess_status_aborts (env : ConsoleEnv)
    (deviceId outputSubDir : String) (numberOfImages : Option Int)
    (startTime endTime : String) (pre : List ImageEntry) (bad : ImageEntry)
    (rest : List ImageEntry) (rs : List OutputRecord)
    (hcfg : env.configOk = true)
    (hwin : resolveWindow outputSubDir env.nowMs = .ok (startTime, endTime))
    (himg : (env.getImages deviceId outputSubDir numberOfImages 0 "DESC" startTime endTime).data.images
      = pre ++ bad :: rest)
    (hpre : processImages env deviceId pre = .ok rs)
    (hstatus : (env.getInferenceResults deviceId none 1 1 (jsReplaceFirst bad.name ".jpg")).status ≠ 200) :
    getImageAndInference env deviceId outputSubDir numberOfImages =
      .error (env.getInferenceResults deviceId none 1 1 (jsReplaceFirst bad.name ".jpg")).response.data := by
  rw [getImageAndInference_eq env deviceId outputSubDir numberOfImages startTime endTime hcfg hwin,
    himg, processImages_append_ok env deviceId pre (bad :: rest) rs hpre]
  simp only [processImages, processOne_bad_status env deviceId bad hstatus]
  rfl

/-- Witness for C2: the spec's scenario, second image's lookup resolves
with status 500 — the first image's completed record is discarded. -/
theorem c2_witness :
    getImageAndInference c2Env "device" "20230126052344873" (some 2) =
      .error "remote failure message" :=
  c2_nonsuccess_status_aborts c2Env "device" "20230126052344873" (some 2)
    "202301260523" "202301261523"
    [⟨"20230126052344873.jpg", "AAA"⟩] ⟨"20230126053344873.jpg", "BBB"⟩ []
    [⟨"data:image/jpg;base64,AAA", "[payload:UEFZ]", "20230126052344873"⟩]
    rfl rfl rfl rfl (by decide)

/-- C3: a valid start timestamp and an empty remote image listing yield an
empty output list and no error. -/
theorem c3_empty_listing_ok (env : ConsoleEnv) (deviceId outputSubDir : String)
    (numberOfImages : Option Int) (startTime endTime : String)
    (hcfg : env.configOk = true)
    (hwin : resolveWindow outputSubDir env.nowMs = .ok (startTime, endTime))
    (himg : (env.getImages deviceId outputSubDir numberOfImages 0 "DESC" startTime endTime).data.images
      = []) :
    getImageAndInference env deviceId outputSubDir numberOfImages = .ok [] := by
  rw [getImageAndInference_eq env deviceId outputSubDir numberOfImages startTime endTime hcfg hwin,
    himg]
  rfl

/-- Witness for C3. -/
theorem c3_witness :
    getImageAndInference c3Env "device" "20230126052344873" (some 5) = .ok [] :=
  c3_empty_listing_ok c3Env "device" "20230126052344873" (some 5)
    "202301260523" "202301261523" rfl rfl rfl

/-- C4 (amended): on success the output has exactly one record per listed
image, in listing order; each record's `image` is the base64 contents
behind the data-URI head `data:image/jpg;base64,` and its `timestamp` is
the remote filename with the FIRST occurrence of `.jpg` removed (which is
the filename stem whenever `.jpg` occurs only as the final extension). -/
theorem c4_output_shape (env : ConsoleEnv) (deviceId outputSubDir : String)
    (numberOfImages : Option Int) (startTime endTime : String)
    (images : List ImageEntry) (out : List OutputRecord)
    (hcfg : env.configOk = true)
    (hwin : resolveWindow outputSubDir env.nowMs = .ok (startTime, endTime))
    (himg : (env.getImages deviceId outputSubDir numberOfImages 0 "DESC" startTime endTime).data.images
      = images)
    (hrun : getImageAndInference env deviceId outputSubDir numberOfImages = .ok out) :
    out.length = images.length ∧
    ∀ i (hi : i < out.length) (hl : i < images.length),
      (out.get ⟨i, hi⟩).timestamp = jsReplaceFirst (images.get ⟨i, hl⟩).name ".jpg" ∧
      (out.get ⟨i, hi⟩).image = "data:image/jpg;base64," ++ (images.get ⟨i, hl⟩).contents := by
  rw [getImageAndInference_eq env deviceId outputSubDir numberOfImages startTime endTime hcfg hwin,
    himg] at hrun
  exact processImages_ok_shape env deviceId images out hrun

/-- Counterexample for C4 as stated: for the remote filename
`.jpg20230101.jpg` the assembled timestamp is `20230101.jpg` (first
occurrence of `.jpg` removed), not `.jpg20230101` (the filename with its
`.jpg` extension removed). -/
theorem c4_counterexample :
    getImageAndInference c4Env "device" "20230126052344873" (some 5) =
      .ok [⟨"data:image/jpg;base64,xx", "[]", "20230101.jpg"⟩] ∧
    ("20230101.jpg" : String) ≠ ".jpg20230101" :=
  ⟨rfl, by decide⟩

/-- Witness for C4's amended theorem: the spec's two-image success
scenario; both records keep listing order with stem timestamps. -/
theorem c4_witness :
    ([⟨"data:image/jpg;base64,BBB", "[payload:UEFZ]", "20230126053344873"⟩,
      ⟨"data:image/jpg;base64,AAA", "[payload:UEFZ]", "20230126052344873"⟩] :
        List OutputRecord).length =
      ([⟨"20230126053344873.jpg", "BBB"⟩, ⟨"20230126052344873.jpg", "AAA"⟩] :
        List ImageEntry).length :=
  (c4_output_shape demoEnv "device" "20230126050000000" (some 2)
    "202301260500" "202301261500"
    [⟨"20230126053344873.jpg", "BBB"⟩, ⟨"20230126052344873.jpg", "AAA"⟩]
    [⟨"data:image/jpg;base64,BBB", "[payload:UEFZ]", "20230126053344873"⟩,
     ⟨"data:image/jpg;base64,AAA", "[payload:UEFZ]", "20230126052344873"⟩]
    rfl rfl rfl rfl).1

/-- C8: when the loop reaches an image whose lookup resolves with status
200, the retrieval fails with `Cannot get inference results.` if the
result set is empty, or if the first entry's first `Inferences` element
exists with an absent (or empty, by JS falsiness) payload field `O`; when
the payload is present and non-empty, the image's outcome is exactly the
decode step applied to it. -/
theorem c8_missing_inference_data (env : ConsoleEnv)
    (deviceId outputSubDir : String) (numberOfImages : Option Int)
    (startTime endTime : String) (pre : List ImageEntry) (img : ImageEntry)
    (rest : List ImageEntry) (rs : List OutputRecord) (r : GetInferenceResponse)
    (hcfg : env.configOk = true)
    (hwin : resolveWindow outputSubDir env.nowMs = .ok (startTime, endTime))
    (himg : (env.getImages deviceId outputSubDir numberOfImages 0 "DESC" startTime endTime).data.images
      = pre ++ img :: rest)
    (hpre : processImages env deviceId pre = .ok rs)
    (hr : env.getInferenceResults deviceId none 1 1 (jsReplaceFirst img.name ".jpg") = r)
    (hstatus : r.status = 200) :
    (r.data = [] →
      getImageAndInference env deviceId outputSubDir numberOfImages = .error noInferenceMsg) ∧
    (∀ entry tl item tl2, r.data = entry :: tl →
      entry.inference_result.Inferences = item :: tl2 →
      (item.O = none ∨ item.O = some "") →
      getImageAndInference env deviceId outputSubDir numberOfImages = .error noInferenceMsg) ∧
    (∀ entry tl item tl2 payload, r.data = entry :: tl →
      entry.inference_result.Inferences = item :: tl2 →
      item.O = some payload → payload ≠ "" →
      processOne env deviceId img = (env.deserializePayload payload).map
        (fun d => ⟨"data:image/jpg;base64," ++ img.contents, d, jsReplaceFirst img.name ".jpg"⟩)) := by
  have hG : getImageAndInference env deviceId outputSubDir numberOfImages =
      (processImages env deviceId (img :: rest)).map (fun t => rs ++ t) := by
    rw [getImageAndInference_eq env deviceId outputSubDir numberOfImages startTime endTime hcfg hwin,
      himg, processImages_append_ok env deviceId pre (img :: rest) rs hpre]
  refine ⟨?_, ?_, ?_⟩
  · intro hd
    rw [hG]
    simp only [processImages, processOne_data_nil env deviceId img r hr hstatus hd]
    rfl
  · intro entry tl item tl2 hd hi hO
    rw [hG]
    simp only [processImages,
      processOne_O_absent env deviceId img r entry tl item tl2 hr hstatus hd hi hO]
    rfl
  · intro entry tl item tl2 payload hd hi hO hne
    exact processOne_O_present env deviceId img r entry tl item tl2 payload hr hstatus hd hi hO hne

/-- Witness for C8: a status-200 lookup with an empty result set makes the
whole retrieval fail with `Cannot get inference results.`. -/
theorem c8_witness :
    getImageAndInference c8Env "device" "20230126052344873" (some 1) =
      .error noInferenceMsg :=
  (c8_missing_inference_data c8Env "device" "20230126052344873" (some 1)
    "202301260523" "202301261523" [] ⟨"20230126052344873.jpg", "AAA"⟩ [] []
    ⟨200, ⟨"unused"⟩, []⟩ rfl rfl rfl rfl rfl rfl).1 rfl

/-! ## Decimal digit lemmas -/

theorem digitsFixed_length (w n : Nat) : (digitsFixed w n).length = w := by
  induction w generalizing n with
  | zero => rfl
  | succ w ih => simp [digitsFixed, ih]

theorem digitChar_isDigit (d : Nat) (h : d < 10) : (Nat.digitChar d).isDigit = true := by
  interval_cases d <;> decide

theorem digitChar_toNat (d : Nat) (h : d < 10) : (Nat.digitChar d).toNat = 48 + d := by
  interval_cases d <;> decide

theorem digitsFixed_all_digits (w n : Nat) :
    (digitsFixed w n).all Char.isDigit = true := by
  induction w generalizing n with
  | zero => rfl
  | succ w ih =>
    simp only [digitsFixed, List.all_append, ih, Bool.true_and, List.all_cons,
      List.all_nil, Bool.and_true]
    exact digitChar_isDigit _ (Nat.mod_lt _ (by norm_num))

theorem ofDigitsNat_append_one (l : List Char) (c : Char) :
    ofDigitsNat (l ++ [c]) = 10 * ofDigitsNat l + (c.toNat - 48) := by
  unfold ofDigitsNat
  rw [List.foldl_append]
  rfl

theorem ofDigitsNat_digitsFixed (w n : Nat) :
    ofDigitsNat (digitsFixed w n) = n % 10 ^ w := by
  induction w generalizing n with
  | zero => simp [digitsFixed, ofDigitsNat, Nat.mod_one]
  | succ w ih =>
    rw [digitsFixed, ofDigitsNat_append_one, ih,
      digitChar_toNat _ (Nat.mod_lt _ (by norm_num)), Nat.add_sub_cancel_left,
      pow_succ', Nat.mod_mul]
    ring

theorem jsNumber_digitsFixed (w n : Nat) (hw : 0 < w) (h : n < 10 ^ w) :
    jsNumber ⟨digitsFixed w n⟩ = some (Int.ofNat n) := by
  unfold jsNumber
  rw [if_neg, if_pos (digitsFixed_all_digits w n),
    show ofDigitsNat (⟨digitsFixed w n⟩ : String).data = ofDigitsNat (digitsFixed w n) from rfl,
    ofDigitsNat_digitsFixed, Nat.mod_eq_of_lt h]
  intro hempty
  rw [List.isEmpty_iff] at hempty
  have := digitsFixed_length w n
  rw [show (⟨digitsFixed w n⟩ : String).data = digitsFixed w n from rfl] at hempty
  rw [hempty] at this
  simp at this
  omega

/-! ## Slicing a concatenation at block boundaries -/

theorem jsSlice_block (pre mid post : List Char) (a b : Nat)
    (hpre : pre.length = a) (hmid : mid.length = b - a) :
    jsSlice ⟨pre ++ (mid ++ post)⟩ a b = ⟨mid⟩ := by
  unfold jsSlice
  congr 1
  rw [show (⟨pre ++ (mid ++ post)⟩ : String).data = pre ++ (mid ++ post) from rfl,
    List.drop_left' hpre, List.take_left' hmid]

theorem jsSlice_last (pre mid : List Char) (a b : Nat)
    (hpre : pre.length = a) (hmid : mid.length ≤ b - a) :
    jsSlice ⟨pre ++ mid⟩ a b = ⟨mid⟩ := by
  unfold jsSlice
  congr 1
  rw [show (⟨pre ++ mid⟩ : String).data = pre ++ mid from rfl,
    List.drop_left' hpre, List.take_of_length_le hmid]

/-! ## Claim C5 -/

/-- C5: parsing any composed 17-digit timestamp reads its seven components
at the fixed offsets 4,2,2,2,2,2,3 and builds the `Date` from exactly those
values with the month decremented by one. -/
theorem c5_parse_fixed_offsets (y mo d h mi s ms : Nat)
    (hy : y < 10000) (hmo : mo < 100) (hd : d < 100) (hh : h < 100)
    (hmi : mi < 100) (hs : s < 100) (hms : ms < 1000) :
    convertTimestampToDate
      ⟨digitsFixed 4 y ++ (digitsFixed 2 mo ++ (digitsFixed 2 d ++ (digitsFixed 2 h ++
        (digitsFixed 2 mi ++ (digitsFixed 2 s ++ digitsFixed 3 ms)))))⟩ =
      some (jsTimeMs y ((mo : Int) - 1) d h mi s ms) := by
  have hs1 : jsSlice ⟨digitsFixed 4 y ++ (digitsFixed 2 mo ++ (digitsFixed 2 d ++
      (digitsFixed 2 h ++ (digitsFixed 2 mi ++ (digitsFixed 2 s ++ digitsFixed 3 ms)))))⟩
      0 4 = ⟨digitsFixed 4 y⟩ :=
    jsSlice_block [] (digitsFixed 4 y) _ 0 4 rfl (digitsFixed_length 4 y)
  have hs2 : jsSlice ⟨digitsFixed 4 y ++ (digitsFixed 2 mo ++ (digitsFixed 2 d ++
      (digitsFixed 2 h ++ (digitsFixed 2 mi ++ (digitsFixed 2 s ++ digitsFixed 3 ms)))))⟩
      4 6 = ⟨digitsFixed 2 mo⟩ :=
    jsSlice_block _ _ _ 4 6 (digitsFixed_length 4 y) (digitsFixed_length 2 mo)
  have hs3 : jsSlice ⟨digitsFixed 4 y ++ (digitsFixed 2 mo ++ (digitsFixed 2 d ++
      (digitsFixed 2 h ++ (digitsFixed 2 mi ++ (digitsFixed 2 s ++ digitsFixed 3 ms)))))⟩
      6 8 = ⟨digitsFixed 2 d⟩ := by
    rw [← List.append_assoc]
    exact jsSlice_block _ _ _ 6 8 (by simp [digitsFixed_length]) (digitsFixed_length 2 d)
  have hs4 : jsSlice ⟨digitsFixed 4 y ++ (digitsFixed 2 mo ++ (digitsFixed 2 d ++
      (digitsFixed 2 h ++ (digitsFixed 2 mi ++ (digitsFixed 2 s ++ digitsFixed 3 ms)))))⟩
      8 10 = ⟨digitsFixed 2 h⟩ := by
    rw [← List.append_assoc, ← List.append_assoc]
    exact jsSlice_block _ _ _ 8 10 (by simp [digitsFixed_length]) (digitsFixed_length 2 h)
  have hs5 : jsSlice ⟨digitsFixed 4 y ++ (digitsFixed 2 mo ++ (digitsFixed 2 d ++
      (digitsFixed 2 h ++ (digitsFixed 2 mi ++ (digitsFixed 2 s ++ digitsFixed 3 ms)))))⟩
      10 12 = ⟨digitsFixed 2 mi⟩ := by
    rw [← List.append_assoc, ← List.append_assoc, ← List.append_assoc]
    exact jsSlice_block _ _ _ 10 12 (by simp [digitsFixed_length]) (digitsFixed_length 2 mi)
  have hs6 : jsSlice ⟨digitsFixed 4 y ++ (digitsFixed 2 mo ++ (digitsFixed 2 d ++
      (digitsFixed 2 h ++ (digitsFixed 2 mi ++ (digitsFixed 2 s ++ digitsFixed 3 ms)))))⟩
      12 14 = ⟨digitsFixed 2 s⟩ := by
    rw [← List.append_assoc, ← List.append_assoc, ← List.append_assoc, ← List.append_assoc]
    exact jsSlice_block _ _ _ 12 14 (by simp [digitsFixed_length]) (digitsFixed_length 2 s)
  have hs7 : jsSlice ⟨digitsFixed 4 y ++ (digitsFixed 2 mo ++ (digitsFixed 2 d ++
      (digitsFixed 2 h ++ (digitsFixed 2 mi ++ (digitsFixed 2 s ++ digitsFixed 3 ms)))))⟩
      14 17 = ⟨digitsFixed 3 ms⟩ := by
    rw [← List.append_assoc, ← List.append_assoc, ← List.append_assoc, ← List.append_assoc,
      ← List.append_assoc]
    exact jsSlice_last _ _ 14 17 (by simp [digitsFixed_length]) (by simp [digitsFixed_length])
  unfold convertTimestampToDate
  rw [hs1, hs2, hs3, hs4, hs5, hs6, hs7,
    jsNumber_digitsFixed 4 y (by norm_num) hy,
    jsNumber_digitsFixed 2 mo (by norm_num) hmo,
    jsNumber_digitsFixed 2 d (by norm_num) hd,
    jsNumber_digitsFixed 2 h (by norm_num) hh,
    jsNumber_digitsFixed 2 mi (by norm_num) hmi,
    jsNumber_digitsFixed 2 s (by norm_num) hs,
    jsNumber_digitsFixed 3 ms (by norm_num) hms]
  rfl

/-- Witness for C5: the spec's example timestamp decomposed into its
seven components. -/
theorem c5_witness :
    convertTimestampToDate "20240401123012345" =
      some (jsTimeMs 2024 ((4 : Int) - 1) 1 12 30 12 345) := by
  have h := c5_parse_fixed_offsets 2024 4 1 12 30 12 345
    (by norm_num) (by norm_num) (by norm_num) (by norm_num) (by norm_num)
    (by norm_num) (by norm_num)
  exact (by decide :
    convertTimestampToDate "20240401123012345" =
      convertTimestampToDate
        ⟨digitsFixed 4 2024 ++ (digitsFixed 2 4 ++ (digitsFixed 2 1 ++ (digitsFixed 2 12 ++
          (digitsFixed 2 30 ++ (digitsFixed 2 12 ++ digitsFixed 3 345)))))⟩).trans h

/-! ## The boolean string comparison agrees with the `String` order -/

theorem charListLtb_iff (l1 l2 : List Char) : charListLtb l1 l2 = true ↔ l1 < l2 := by
  induction l1 generalizing l2 with
  | nil =>
    cases l2 with
    | nil =>
      simp only [charListLtb, Bool.false_eq_true, false_iff]
      intro h
      cases h
    | cons b bs =>
      simp only [charListLtb, true_iff]
      exact List.Lex.nil
  | cons a as ih =>
    cases l2 with
    | nil =>
      simp only [charListLtb, Bool.false_eq_true, false_iff]
      intro h
      cases h
    | cons b bs =>
      unfold charListLtb
      by_cases hab : a < b
      · simp only [if_pos hab, true_iff]
        exact List.Lex.rel hab
      · rw [if_neg hab]
        by_cases hba : b < a
        · simp only [if_pos hba, Bool.false_eq_true, false_iff]
          intro h
          cases h with
          | rel h' => exact hab h'
          | cons h' => exact absurd hba (lt_irrefl a)
        · rw [if_neg hba]
          have heq : a = b := le_antisymm (le_of_not_lt hba) (le_of_not_lt hab)
          subst heq
          constructor
          · intro h
            exact List.Lex.cons ((ih bs).mp h)
          · intro h
            cases h with
            | rel h' => exact absurd h' hab
            | cons h' => exact (ih bs).mpr h'

theorem jsStrLtb_iff (s t : String) : jsStrLtb s t = true ↔ s < t := by
  rw [String.lt_iff_toList_lt]
  exact charListLtb_iff s.data t.data

/-- Reduced form of `resolveWindow` on a successfully parsed directory
name. -/
theorem resolveWindow_some (sub : String) (nowMs t : Int)
    (h : convertTimestampToDate sub = some t) :
    resolveWindow sub nowMs = .ok (formatMinute t,
      if jsStrLtb (formatMinute (t + 10 * 60 * 60 * 1000)) (formatMinute nowMs)
      then formatMinute (t + 10 * 60 * 60 * 1000)
      else formatMinute nowMs) := by
  unfold resolveWindow
  rw [h]

/-! ## Claim C1 -/

/-- C1: whenever the start timestamp parses, the resolved window's
endTime is at most the formatted current minute, at most the formatted
minute of the parsed start plus exactly ten hours (36000000 ms), and is
equal to one of the two — the minimum at minute granularity. -/
theorem c1_resolveWindow_end_is_min (T : String) (nowMs t : Int)
    (h : convertTimestampToDate T = some t) :
    ∃ endT, resolveWindow T nowMs = .ok (formatMinute t, endT) ∧
      endT ≤ formatMinute nowMs ∧
      endT ≤ formatMinute (t + 10 * 60 * 60 * 1000) ∧
      (endT = formatMinute nowMs ∨ endT = formatMinute (t + 10 * 60 * 60 * 1000)) := by
  rw [resolveWindow_some T nowMs t h]
  cases hlt : jsStrLtb (formatMinute (t + 10 * 60 * 60 * 1000)) (formatMinute nowMs) with
  | true =>
    rw [if_pos rfl]
    have hl : formatMinute (t + 10 * 60 * 60 * 1000) < formatMinute nowMs :=
      (jsStrLtb_iff _ _).mp hlt
    exact ⟨_, rfl, le_of_lt hl, le_refl _, Or.inr rfl⟩
  | false =>
    rw [if_neg Bool.false_ne_true]
    have hnl : ¬ formatMinute (t + 10 * 60 * 60 * 1000) < formatMinute nowMs := by
      intro hc
      rw [(jsStrLtb_iff _ _).mpr hc] at hlt
      exact Bool.noConfusion hlt
    exact ⟨_, rfl, le_refl _, le_of_not_lt hnl, Or.inl rfl⟩

/-- Witness for C1. -/
theorem c1_witness :
    convertTimestampToDate "20230126052344873" = some 1674710624873 ∧
    (∃ endT, resolveWindow "20230126052344873" 1674721424873 =
        .ok (formatMinute 1674710624873, endT) ∧
      endT ≤ formatMinute 1674721424873 ∧
      endT ≤ formatMinute (1674710624873 + 10 * 60 * 60 * 1000) ∧
      (endT = formatMinute 1674721424873 ∨
       endT = formatMinute (1674710624873 + 10 * 60 * 60 * 1000))) :=
  ⟨by decide, c1_resolveWindow_end_is_min "20230126052344873" 1674721424873
    1674710624873 (by decide)⟩

/-! ## Claims C6, C7, C9 -/

/-- Counterexample for C6 as stated: "20231301000000000" is 17 numeric
characters with month 13 (out of calendar range), and
"202310010000000012345" is 21 numeric characters (not exactly 17); the
claim requires the parse step to fail on both, yet both resolve to a
window without error (out-of-range and overlong components roll over
through date arithmetic or are ignored). -/
theorem c6_counterexample :
    (∃ w, resolveWindow "20231301000000000" 1674800000000 = .ok w) ∧
    (∃ w, resolveWindow "202310010000000012345" 1674800000000 = .ok w) :=
  ⟨⟨_, rfl⟩, ⟨_, rfl⟩⟩

theorem jsNumber_isSome_of_digits (s : String) (h : s.data.all Char.isDigit = true) :
    ∃ v, jsNumber s = some v := by
  unfold jsNumber
  by_cases he : s.data.isEmpty
  · rw [if_pos he]
    exact ⟨0, rfl⟩
  · rw [if_neg he, if_pos h]
    exact ⟨_, rfl⟩

/-- C6 (amended): neither the 17-character length nor the calendar ranges
of the components are checked.  Any string whose seven fixed-offset
component slices consist of decimal digits only (an empty slice reads as
0) resolves a window without error — out-of-range components such as
month 13 or day 32 roll over through date arithmetic, over-length strings
lose their extra digits to the slicing.  The step does fail, with the
directory-name parse error, when a sliced component is not numeric, as in
the spec's scenario imagePath = "not-a-date".  (On digit-only slices and
on "not-a-date" the `Number` model is exact; the claim's original
universal failure assertion is refuted by `c6_counterexample`.) -/
theorem c6_amended_digit_slices_roll_over :
    (∀ (s : String) (nowMs : Int),
      (jsSlice s 0 4).data.all Char.isDigit = true →
      (jsSlice s 4 6).data.all Char.isDigit = true →
      (jsSlice s 6 8).data.all Char.isDigit = true →
      (jsSlice s 8 10).data.all Char.isDigit = true →
      (jsSlice s 10 12).data.all Char.isDigit = true →
      (jsSlice s 12 14).data.all Char.isDigit = true →
      (jsSlice s 14 17).data.all Char.isDigit = true →
      ∃ w, resolveWindow s nowMs = .ok w) ∧
    (∀ nowMs : Int, resolveWindow "not-a-date" nowMs = .error dirNameErrMsg) := by
  constructor
  · intro s nowMs h1 h2 h3 h4 h5 h6 h7
    obtain ⟨v1, hv1⟩ := jsNumber_isSome_of_digits _ h1
    obtain ⟨v2, hv2⟩ := jsNumber_isSome_of_digits _ h2
    obtain ⟨v3, hv3⟩ := jsNumber_isSome_of_digits _ h3
    obtain ⟨v4, hv4⟩ := jsNumber_isSome_of_digits _ h4
    obtain ⟨v5, hv5⟩ := jsNumber_isSome_of_digits _ h5
    obtain ⟨v6, hv6⟩ := jsNumber_isSome_of_digits _ h6
    obtain ⟨v7, hv7⟩ := jsNumber_isSome_of_digits _ h7
    unfold resolveWindow convertTimestampToDate
    rw [hv1, hv2, hv3, hv4, hv5, hv6, hv7]
    exact ⟨_, rfl⟩
  · intro nowMs
    rfl

/-- Witness for C6's amended theorem: day 32 (out of calendar range) rolls
over rather than failing. -/
theorem c6_witness :
    ∃ w, resolveWindow "20230132000000000" 1674800000000 = .ok w :=
  c6_amended_digit_slices_roll_over.1 "20230132000000000" 1674800000000
    (by decide) (by decide) (by decide) (by decide) (by decide) (by decide) (by decide)

/-- Counterexample for C7 as stated: a GET request in which `deviceId` is
present but empty.  The claim requires the pipeline to run (the
environment would answer it successfully, so a 200 with the record list),
yet the handler answers 400. -/
theorem c7_counterexample :
    handler demoEnv ⟨"GET", ⟨some "", some "20230126050000000", some "2"⟩⟩ =
      (400, .message "Device ID is not specified.") := rfl

/-- C7 (amended): 405 on a non-GET method; otherwise 400 when `deviceId`
is absent OR empty (JS falsiness); otherwise the pipeline runs with
`imagePath` defaulted to "" when absent or empty and `numberOfImages`
parsed by `parseInt` when present and non-empty, else defaulted to 5 —
answering 200 with the output list on success and 500 with
`{message}` on failure. -/
theorem c7_handler_behavior (env : ConsoleEnv) (req : ApiRequest) :
    (req.method ≠ "GET" →
      handler env req = (405, .message "The API server only accepts GET requests.")) ∧
    (req.method = "GET" → (req.query.deviceId = none ∨ req.query.deviceId = some "") →
      handler env req = (400, .message "Device ID is not specified.")) ∧
    (∀ d, req.method = "GET" → req.query.deviceId = some d → d ≠ "" →
      (∀ out, getImageAndInference env d
          (if truthy req.query.imagePath then req.query.imagePath.getD "" else "")
          (if truthy req.query.numberOfImages then jsParseInt (req.query.numberOfImages.getD "")
           else some 5) = .ok out →
        handler env req = (200, .records out)) ∧
      (∀ e, getImageAndInference env d
          (if truthy req.query.imagePath then req.query.imagePath.getD "" else "")
          (if truthy req.query.numberOfImages then jsParseInt (req.query.numberOfImages.getD "")
           else some 5) = .error e →
        handler env req = (500, .message e))) := by
  refine ⟨?_, ?_, ?_⟩
  · intro hm
    unfold handler
    rw [if_pos hm]
  · intro hm hd
    unfold handler
    rw [if_neg (by simp [hm])]
    rcases hd with h | h <;> rw [h] <;> rfl
  · intro d hm hd hne
    have htr : truthy (some d) = true := by simp [truthy, hne]
    constructor
    · intro out hout
      unfold handler
      rw [if_neg (by simp [hm]), hd]
      rw [if_neg (by simp [htr]), htr, if_pos rfl]
      simp only [Option.getD_some]
      rw [hout]
    · intro e herr
      unfold handler
      rw [if_neg (by simp [hm]), hd]
      rw [if_neg (by simp [htr]), htr, if_pos rfl]
      simp only [Option.getD_some]
      rw [herr]

/-- Witness for C7's amended theorem: the spec's success scenario through
the handler. -/
theorem c7_witness :
    handler demoEnv ⟨"GET", ⟨some "device", some "20230126050000000", none⟩⟩ =
      (200, .records
        [⟨"data:image/jpg;base64,BBB", "[payload:UEFZ]", "20230126053344873"⟩,
         ⟨"data:image/jpg;base64,AAA", "[payload:UEFZ]", "20230126052344873"⟩]) :=
  ((c7_handler_behavior demoEnv
      ⟨"GET", ⟨some "device", some "20230126050000000", none⟩⟩).2.2
    "device" rfl rfl (by decide)).1 _ rfl

/-- C9: the window resolution performs no start-before-end validation:
for the start timestamp 2023-06-12T00:00 and a current instant of
2023-01-27T06:13 (strictly before the start), the call returns without
error a window whose endTime (the current minute) is lexicographically and
chronologically earlier than its startTime. -/
theorem c9_no_start_before_end_check :
    ∃ t, convertTimestampToDate "20230612000000000" = some t ∧
      (1674800000000 : Int) < t ∧
      resolveWindow "20230612000000000" 1674800000000 =
        .ok ("202306120000", "202301270613") ∧
      ("202301270613" : String) < "202306120000" := by
  refine ⟨jsTimeMs 2023 5 12 0 0 0 0, by decide, by decide, rfl, ?_⟩
  exact (jsStrLtb_iff _ _).mp (by decide)

/-! ## Calendar arithmetic: the day-number conversion is strictly monotone -/

/-- The year-of-era search is correct: the chosen year starts at or before
`doe` and the next year starts strictly after it. -/
theorem yoeOf_char (doe : Int) (h0 : 0 ≤ doe) (h1 : doe < 146097) :
    daysToYearOfEra (yoeOf doe) ≤ doe ∧ doe < daysToYearOfEra (yoeOf doe + 1) ∧
    0 ≤ yoeOf doe ∧ yoeOf doe ≤ 399 := by
  unfold yoeOf daysToYearOfEra
  split
  · by_cases hA : (doe / 366 + 2) % 4 = 0 <;> by_cases hB : (doe / 366 + 2) % 100 = 0 <;>
      by_cases hC : (doe / 366 + 2) % 400 = 0 <;> omega
  · by_cases hA : (doe / 366 + 1) % 4 = 0 <;> by_cases hB : (doe / 366 + 1) % 100 = 0 <;>
      by_cases hC : (doe / 366 + 1) % 400 = 0 <;> omega

theorem daysToYearOfEra_mono (y z : Int) (h : y ≤ z) :
    daysToYearOfEra y ≤ daysToYearOfEra z := by
  unfold daysToYearOfEra
  omega

/-- No year of the era is longer than 366 days. -/
theorem daysToYearOfEra_succ_le (y : Int) :
    daysToYearOfEra (y + 1) ≤ daysToYearOfEra y + 366 := by
  unfold daysToYearOfEra
  by_cases hA : (y + 1) % 4 = 0 <;> by_cases hB : (y + 1) % 100 = 0 <;>
    by_cases hC : (y + 1) % 400 = 0 <;> omega

theorem doyOf_bounds (doe : Int) (h0 : 0 ≤ doe) (h1 : doe < 146097) :
    0 ≤ doyOf doe ∧ doyOf doe ≤ 365 := by
  obtain ⟨ha, hb, _, _⟩ := yoeOf_char doe h0 h1
  have := daysToYearOfEra_succ_le (yoeOf doe)
  unfold doyOf
  omega

theorem yoeOf_mono (a b : Int) (h0 : 0 ≤ a) (hab : a ≤ b) (h1 : b < 146097) :
    yoeOf a ≤ yoeOf b := by
  obtain ⟨ha1, ha2, ha3, _⟩ := yoeOf_char a h0 (by omega)
  obtain ⟨hb1, hb2, hb3, _⟩ := yoeOf_char b (by omega) h1
  by_contra hcon
  have hle : yoeOf b + 1 ≤ yoeOf a := by omega
  have := daysToYearOfEra_mono (yoeOf b + 1) (yoeOf a) hle
  omega

theorem mp_mday_bounds (doy : Int) (h0 : 0 ≤ doy) (h1 : doy ≤ 365) :
    0 ≤ mpOf doy ∧ mpOf doy ≤ 11 ∧ 1 ≤ mdayOf doy ∧ mdayOf doy ≤ 31 := by
  unfold mdayOf mpOf
  omega

theorem mp_mday_mono (a b : Int) (h0 : 0 ≤ a) (hab : a < b) (h1 : b ≤ 365) :
    mpOf a < mpOf b ∨ (mpOf a = mpOf b ∧ mdayOf a < mdayOf b) := by
  unfold mdayOf mpOf
  omega

theorem eraOf_doeOf (z : Int) :
    z + 719468 = 146097 * eraOf z + doeOf z ∧ 0 ≤ doeOf z ∧ doeOf z < 146097 := by
  unfold eraOf doeOf
  omega

/-- Strict monotonicity of the day-number-to-calendar conversion, as
lexicographic order on (year, month, day). -/
theorem civil_lt (z1 z2 : Int) (h : z1 < z2) :
    civilYear z1 < civilYear z2 ∨
    (civilYear z1 = civilYear z2 ∧
      (civilMonth z1 < civilMonth z2 ∨
       (civilMonth z1 = civilMonth z2 ∧ civilDay z1 < civilDay z2))) := by
  obtain ⟨he1, hd1l, hd1u⟩ := eraOf_doeOf z1
  obtain ⟨he2, hd2l, hd2u⟩ := eraOf_doeOf z2
  obtain ⟨hc1a, hc1b, hy1a, hy1b⟩ := yoeOf_char (doeOf z1) hd1l hd1u
  obtain ⟨hc2a, hc2b, hy2a, hy2b⟩ := yoeOf_char (doeOf z2) hd2l hd2u
  obtain ⟨hdoy1a, hdoy1b⟩ := doyOf_bounds (doeOf z1) hd1l hd1u
  obtain ⟨hdoy2a, hdoy2b⟩ := doyOf_bounds (doeOf z2) hd2l hd2u
  obtain ⟨hmp1a, hmp1b, hmd1a, hmd1b⟩ := mp_mday_bounds (doyOf (doeOf z1)) hdoy1a hdoy1b
  obtain ⟨hmp2a, hmp2b, hmd2a, hmd2b⟩ := mp_mday_bounds (doyOf (doeOf z2)) hdoy2a hdoy2b
  have hdoyeq1 : doyOf (doeOf z1) = doeOf z1 - daysToYearOfEra (yoeOf (doeOf z1)) := rfl
  have hdoyeq2 : doyOf (doeOf z2) = doeOf z2 - daysToYearOfEra (yoeOf (doeOf z2)) := rfl
  have hyd : (eraOf z1 * 400 + yoeOf (doeOf z1) < eraOf z2 * 400 + yoeOf (doeOf z2)) ∨
      (eraOf z1 * 400 + yoeOf (doeOf z1) = eraOf z2 * 400 + yoeOf (doeOf z2) ∧
        doyOf (doeOf z1) < doyOf (doeOf z2)) := by
    have hera : eraOf z1 < eraOf z2 ∨ (eraOf z1 = eraOf z2 ∧ doeOf z1 < doeOf z2) := by
      omega
    rcases hera with h' | ⟨heq, hlt⟩
    · left; omega
    · have hm : yoeOf (doeOf z1) ≤ yoeOf (doeOf z2) :=
        yoeOf_mono (doeOf z1) (doeOf z2) hd1l (by omega) hd2u
      rcases lt_or_eq_of_le hm with h' | h'
      · left; omega
      · right
        refine ⟨by omega, ?_⟩
        rw [hdoyeq1, hdoyeq2, h']
        omega
  rcases hyd with hA | ⟨hAeq, hdoy⟩
  · unfold civilYear civilMonth civilDay monthFromMp
    split_ifs <;> omega
  · rcases mp_mday_mono (doyOf (doeOf z1)) (doyOf (doeOf z2)) hdoy1a hdoy hdoy2b with
      hp | ⟨hpeq, hmd⟩ <;>
    · unfold civilYear civilMonth civilDay monthFromMp
      split_ifs <;> omega

/-- The conversion is a function of the day number alone (same day, same
fields). -/
theorem civil_congr (z1 z2 : Int) (h : z1 = z2) :
    civilYear z1 = civilYear z2 ∧ civilMonth z1 = civilMonth z2 ∧
    civilDay z1 = civilDay z2 := by
  rw [h]
  exact ⟨rfl, rfl, rfl⟩

/-! ## Time fields at minute granularity -/

theorem timeFields_of_minute (t : Int) :
    dayFromTime t = (t / 60000) / 1440 ∧
    hourFromTime t = ((t / 60000) % 1440) / 60 ∧
    minFromTime t = (t / 60000) % 60 := by
  unfold dayFromTime hourFromTime minFromTime
  refine ⟨by omega, by omega, by omega⟩

theorem hour_min_bounds (t : Int) :
    0 ≤ hourFromTime t ∧ hourFromTime t ≤ 23 ∧
    0 ≤ minFromTime t ∧ minFromTime t ≤ 59 := by
  unfold hourFromTime minFromTime
  omega

theorem minute_fields_lt (t1 t2 : Int) (h : t1 / 60000 < t2 / 60000) :
    dayFromTime t1 < dayFromTime t2 ∨
    (dayFromTime t1 = dayFromTime t2 ∧
      (hourFromTime t1 < hourFromTime t2 ∨
       (hourFromTime t1 = hourFromTime t2 ∧ minFromTime t1 < minFromTime t2))) := by
  unfold dayFromTime hourFromTime minFromTime
  omega

theorem minute_fields_eq (t1 t2 : Int) (h : t1 / 60000 = t2 / 60000) :
    dayFromTime t1 = dayFromTime t2 ∧ hourFromTime t1 = hourFromTime t2 ∧
    minFromTime t1 = minFromTime t2 := by
  unfold dayFromTime hourFromTime minFromTime
  omega

/-! ## Lexicographic comparison of fixed-width digit blocks -/

theorem charListLtb_append (l1 l2 t1 t2 : List Char) (hlen : l1.length = l2.length) :
    (charListLtb (l1 ++ t1) (l2 ++ t2) = true ↔
      (charListLtb l1 l2 = true ∨ (l1 = l2 ∧ charListLtb t1 t2 = true))) := by
  induction l1 generalizing l2 with
  | nil =>
    cases l2 with
    | nil => simp [charListLtb]
    | cons b bs => simp at hlen
  | cons a as ih =>
    cases l2 with
    | nil => simp at hlen
    | cons b bs =>
      simp only [List.cons_append]
      unfold charListLtb
      by_cases hab : a < b
      · simp [hab]
      · by_cases hba : b < a
        · have hne : a ≠ b := by
            rintro rfl
            exact lt_irrefl a hba
          simp [hab, hba, hne]
        · have heq : a = b := le_antisymm (le_of_not_lt hba) (le_of_not_lt hab)
          subst heq
          rw [if_neg hab, if_neg hba, if_neg hab, if_neg hba,
            ih bs (by simpa using hlen)]
          simp only [List.cons.injEq, true_and]
          rw [← charListLtb.eq_def]

theorem charListLtb_single (c d : Char) :
    charListLtb [c] [d] = true ↔ c < d := by
  unfold charListLtb
  by_cases h : c < d
  · simp [h]
  · by_cases h' : d < c <;> simp [h, h', charListLtb]

theorem digitChar_lt_iff (d1 d2 : Nat) (h1 : d1 < 10) (h2 : d2 < 10) :
    Nat.digitChar d1 < Nat.digitChar d2 ↔ d1 < d2 := by
  interval_cases d1 <;> interval_cases d2 <;> simp <;> decide

theorem digitChar_inj_iff (d1 d2 : Nat) (h1 : d1 < 10) (h2 : d2 < 10) :
    Nat.digitChar d1 = Nat.digitChar d2 ↔ d1 = d2 := by
  interval_cases d1 <;> interval_cases d2 <;> simp <;> decide

theorem digitsFixed_lt_eq_iff (w m n : Nat) :
    (charListLtb (digitsFixed w m) (digitsFixed w n) = true ↔ m % 10 ^ w < n % 10 ^ w) ∧
    (digitsFixed w m = digitsFixed w n ↔ m % 10 ^ w = n % 10 ^ w) := by
  induction w generalizing m n with
  | zero => simp [digitsFixed, charListLtb, Nat.mod_one]
  | succ w ih =>
    have hmod1 : m % (10 * 10 ^ w) = m % 10 + 10 * (m / 10 % 10 ^ w) := Nat.mod_mul
    have hmod2 : n % (10 * 10 ^ w) = n % 10 + 10 * (n / 10 % 10 ^ w) := Nat.mod_mul
    have hm10 : m % 10 < 10 := Nat.mod_lt _ (by norm_num)
    have hn10 : n % 10 < 10 := Nat.mod_lt _ (by norm_num)
    have hmw : m / 10 % 10 ^ w < 10 ^ w := Nat.mod_lt _ (Nat.pos_pow_of_pos w (by norm_num))
    have hnw : n / 10 % 10 ^ w < 10 ^ w := Nat.mod_lt _ (Nat.pos_pow_of_pos w (by norm_num))
    constructor
    · rw [digitsFixed, digitsFixed,
        charListLtb_append _ _ _ _ (by rw [digitsFixed_length, digitsFixed_length]),
        (ih (m / 10) (n / 10)).1, (ih (m / 10) (n / 10)).2, charListLtb_single,
        digitChar_lt_iff _ _ hm10 hn10, pow_succ', hmod1, hmod2]
      omega
    · rw [digitsFixed, digitsFixed, pow_succ', hmod1, hmod2]
      constructor
      · intro hEq
        obtain ⟨hpre, hsuf⟩ := List.append_inj' hEq (by simp)
        have h1 := (ih (m / 10) (n / 10)).2.mp hpre
        have h2 := (digitChar_inj_iff _ _ hm10 hn10).mp (by simpa using hsuf)
        omega
      · intro hEq
        have h1 : m / 10 % 10 ^ w = n / 10 % 10 ^ w := by omega
        have h2 : m % 10 = n % 10 := by omega
        rw [(ih (m / 10) (n / 10)).2.mpr h1, h2]

theorem padDigits_small (w n : Nat) (h : n < 10 ^ w) :
    padDigits w n = digitsFixed w n := if_pos h

/-- Comparison of two five-block strings (widths 4,2,2,2,2) with all
fields in range: lexicographic order on the strings is lexicographic order
on the field tuples. -/
theorem blocks5_lt_eq (y1 y2 a1 a2 b1 b2 c1 c2 d1 d2 : Nat)
    (hy1 : y1 < 10000) (hy2 : y2 < 10000) (ha1 : a1 < 100) (ha2 : a2 < 100)
    (hb1 : b1 < 100) (hb2 : b2 < 100) (hc1 : c1 < 100) (hc2 : c2 < 100)
    (hd1 : d1 < 100) (hd2 : d2 < 100) :
    (charListLtb
        (digitsFixed 4 y1 ++ (digitsFixed 2 a1 ++ (digitsFixed 2 b1 ++
          (digitsFixed 2 c1 ++ digitsFixed 2 d1))))
        (digitsFixed 4 y2 ++ (digitsFixed 2 a2 ++ (digitsFixed 2 b2 ++
          (digitsFixed 2 c2 ++ digitsFixed 2 d2)))) = true ↔
      (y1 < y2 ∨ (y1 = y2 ∧ (a1 < a2 ∨ (a1 = a2 ∧ (b1 < b2 ∨ (b1 = b2 ∧
        (c1 < c2 ∨ (c1 = c2 ∧ d1 < d2))))))))) ∧
    ((digitsFixed 4 y1 ++ (digitsFixed 2 a1 ++ (digitsFixed 2 b1 ++
        (digitsFixed 2 c1 ++ digitsFixed 2 d1)))) =
     (digitsFixed 4 y2 ++ (digitsFixed 2 a2 ++ (digitsFixed 2 b2 ++
        (digitsFixed 2 c2 ++ digitsFixed 2 d2)))) ↔
      (y1 = y2 ∧ a1 = a2 ∧ b1 = b2 ∧ c1 = c2 ∧ d1 = d2)) := by
  have e4 : ∀ m n : Nat, m < 10000 → n < 10000 →
      ((charListLtb (digitsFixed 4 m) (digitsFixed 4 n) = true ↔ m < n) ∧
       (digitsFixed 4 m = digitsFixed 4 n ↔ m = n)) := by
    intro m n hm hn
    have := digitsFixed_lt_eq_iff 4 m n
    rw [Nat.mod_eq_of_lt (lt_of_lt_of_le hm (by norm_num)),
      Nat.mod_eq_of_lt (lt_of_lt_of_le hn (by norm_num))] at this
    exact this
  have e2 : ∀ m n : Nat, m < 100 → n < 100 →
      ((charListLtb (digitsFixed 2 m) (digitsFixed 2 n) = true ↔ m < n) ∧
       (digitsFixed 2 m = digitsFixed 2 n ↔ m = n)) := by
    intro m n hm hn
    have := digitsFixed_lt_eq_iff 2 m n
    rw [Nat.mod_eq_of_lt (lt_of_lt_of_le hm (by norm_num)),
      Nat.mod_eq_of_lt (lt_of_lt_of_le hn (by norm_num))] at this
    exact this
  constructor
  · rw [charListLtb_append _ _ _ _ (by rw [digitsFixed_length, digitsFixed_length]),
      charListLtb_append _ _ _ _ (by rw [digitsFixed_length, digitsFixed_length]),
      charListLtb_append _ _ _ _ (by rw [digitsFixed_length, digitsFixed_length]),
      charListLtb_append _ _ _ _ (by rw [digitsFixed_length, digitsFixed_length]),
      (e4 y1 y2 hy1 hy2).1, (e4 y1 y2 hy1 hy2).2,
      (e2 a1 a2 ha1 ha2).1, (e2 a1 a2 ha1 ha2).2,
      (e2 b1 b2 hb1 hb2).1, (e2 b1 b2 hb1 hb2).2,
      (e2 c1 c2 hc1 hc2).1, (e2 c1 c2 hc1 hc2).2,
      (e2 d1 d2 hd1 hd2).1]
  · constructor
    · intro hEq
      obtain ⟨hy, hrest1⟩ :=
        List.append_inj hEq (by rw [digitsFixed_length, digitsFixed_length])
      obtain ⟨ha, hrest2⟩ :=
        List.append_inj hrest1 (by rw [digitsFixed_length, digitsFixed_length])
      obtain ⟨hb, hrest3⟩ :=
        List.append_inj hrest2 (by rw [digitsFixed_length, digitsFixed_length])
      obtain ⟨hc, hd⟩ :=
        List.append_inj hrest3 (by rw [digitsFixed_length, digitsFixed_length])
      exact ⟨(e4 _ _ hy1 hy2).2.mp hy, (e2 _ _ ha1 ha2).2.mp ha,
        (e2 _ _ hb1 hb2).2.mp hb, (e2 _ _ hc1 hc2).2.mp hc, (e2 _ _ hd1 hd2).2.mp hd⟩
    · intro ⟨h1, h2, h3, h4, h5⟩
      rw [h1, h2, h3, h4, h5]

/-! ## Claim C10: the minute format is monotone -/

theorem strLt_iff_charListLtb (l1 l2 : List Char) :
    (⟨l1⟩ : String) < ⟨l2⟩ ↔ charListLtb l1 l2 = true :=
  (jsStrLtb_iff ⟨l1⟩ ⟨l2⟩).symm

theorem strMk_eq_iff (l1 l2 : List Char) : (⟨l1⟩ : String) = ⟨l2⟩ ↔ l1 = l2 :=
  ⟨fun h => by cases h; rfl, fun h => by rw [h]⟩

theorem civil_month_day_bounds (z : Int) :
    1 ≤ civilMonth z ∧ civilMonth z ≤ 12 ∧ 1 ≤ civilDay z ∧ civilDay z ≤ 31 := by
  obtain ⟨he, h0, h1⟩ := eraOf_doeOf z
  obtain ⟨hda, hdb⟩ := doyOf_bounds (doeOf z) h0 h1
  obtain ⟨h2, h3, h4, h5⟩ := mp_mday_bounds (doyOf (doeOf z)) hda hdb
  unfold civilMonth civilDay monthFromMp
  split_ifs <;> omega

/-- With a four-digit year every `format` token pads to its fixed width. -/
theorem formatMinute_eq_blocks (t : Int)
    (hya : 1000 ≤ civilYear (dayFromTime t)) (hyb : civilYear (dayFromTime t) ≤ 9999) :
    formatMinute t =
      ⟨digitsFixed 4 (civilYear (dayFromTime t)).toNat ++
       (digitsFixed 2 (civilMonth (dayFromTime t)).toNat ++
        (digitsFixed 2 (civilDay (dayFromTime t)).toNat ++
         (digitsFixed 2 (hourFromTime t).toNat ++
          digitsFixed 2 (minFromTime t).toNat)))⟩ := by
  obtain ⟨hm1, hm2, hm3, hm4⟩ := civil_month_day_bounds (dayFromTime t)
  obtain ⟨hh1, hh2, hh3, hh4⟩ := hour_min_bounds t
  unfold formatMinute
  rw [padDigits_small 4 _ (lt_of_lt_of_le (show (civilYear (dayFromTime t)).toNat < 10000 by omega)
      (by norm_num)),
    padDigits_small 2 _ (lt_of_lt_of_le (show (civilMonth (dayFromTime t)).toNat < 100 by omega)
      (by norm_num)),
    padDigits_small 2 _ (lt_of_lt_of_le (show (civilDay (dayFromTime t)).toNat < 100 by omega)
      (by norm_num)),
    padDigits_small 2 _ (lt_of_lt_of_le (show (hourFromTime t).toNat < 100 by omega)
      (by norm_num)),
    padDigits_small 2 _ (lt_of_lt_of_le (show (minFromTime t).toNat < 100 by omega)
      (by norm_num))]

/-- At minute granularity the five calendar fields are lexicographically
strictly monotone in the time value. -/
theorem minute_tuple_lt (t1 t2 : Int) (h : t1 / 60000 < t2 / 60000) :
    civilYear (dayFromTime t1) < civilYear (dayFromTime t2) ∨
    (civilYear (dayFromTime t1) = civilYear (dayFromTime t2) ∧
     (civilMonth (dayFromTime t1) < civilMonth (dayFromTime t2) ∨
      (civilMonth (dayFromTime t1) = civilMonth (dayFromTime t2) ∧
       (civilDay (dayFromTime t1) < civilDay (dayFromTime t2) ∨
        (civilDay (dayFromTime t1) = civilDay (dayFromTime t2) ∧
         (hourFromTime t1 < hourFromTime t2 ∨
          (hourFromTime t1 = hourFromTime t2 ∧
           minFromTime t1 < minFromTime t2))))))) := by
  rcases minute_fields_lt t1 t2 h with hd | ⟨hde, hrest⟩
  · have := civil_lt (dayFromTime t1) (dayFromTime t2) hd
    omega
  · have := civil_congr (dayFromTime t1) (dayFromTime t2) hde
    omega

/-- Core equivalence: for four-digit years, comparing the formatted strings
(lexicographically, as JS `<` does) is comparing the time values at minute
granularity, and the formatted strings are equal exactly on equal
minutes. -/
theorem formatMinute_lt_iff (t1 t2 : Int)
    (h1a : 1000 ≤ civilYear (dayFromTime t1)) (h1b : civilYear (dayFromTime t1) ≤ 9999)
    (h2a : 1000 ≤ civilYear (dayFromTime t2)) (h2b : civilYear (dayFromTime t2) ≤ 9999) :
    (formatMinute t1 < formatMinute t2 ↔ t1 / 60000 < t2 / 60000) ∧
    (formatMinute t1 = formatMinute t2 ↔ t1 / 60000 = t2 / 60000) := by
  obtain ⟨hm1a, hm1b, hd1a, hd1b⟩ := civil_month_day_bounds (dayFromTime t1)
  obtain ⟨hm2a, hm2b, hd2a, hd2b⟩ := civil_month_day_bounds (dayFromTime t2)
  obtain ⟨hh1a, hh1b, hn1a, hn1b⟩ := hour_min_bounds t1
  obtain ⟨hh2a, hh2b, hn2a, hn2b⟩ := hour_min_bounds t2
  have cY1 : ((civilYear (dayFromTime t1)).toNat : Int) = civilYear (dayFromTime t1) :=
    Int.toNat_of_nonneg (by omega)
  have cY2 : ((civilYear (dayFromTime t2)).toNat : Int) = civilYear (dayFromTime t2) :=
    Int.toNat_of_nonneg (by omega)
  have cM1 : ((civilMonth (dayFromTime t1)).toNat : Int) = civilMonth (dayFromTime t1) :=
    Int.toNat_of_nonneg (by omega)
  have cM2 : ((civilMonth (dayFromTime t2)).toNat : Int) = civilMonth (dayFromTime t2) :=
    Int.toNat_of_nonneg (by omega)
  have cD1 : ((civilDay (dayFromTime t1)).toNat : Int) = civilDay (dayFromTime t1) :=
    Int.toNat_of_nonneg (by omega)
  have cD2 : ((civilDay (dayFromTime t2)).toNat : Int) = civilDay (dayFromTime t2) :=
    Int.toNat_of_nonneg (by omega)
  have cH1 : ((hourFromTime t1).toNat : Int) = hourFromTime t1 :=
    Int.toNat_of_nonneg (by omega)
  have cH2 : ((hourFromTime t2).toNat : Int) = hourFromTime t2 :=
    Int.toNat_of_nonneg (by omega)
  have cN1 : ((minFromTime t1).toNat : Int) = minFromTime t1 :=
    Int.toNat_of_nonneg (by omega)
  have cN2 : ((minFromTime t2).toNat : Int) = minFromTime t2 :=
    Int.toNat_of_nonneg (by omega)
  obtain ⟨hblt12, hbeq⟩ := blocks5_lt_eq
    (civilYear (dayFromTime t1)).toNat (civilYear (dayFromTime t2)).toNat
    (civilMonth (dayFromTime t1)).toNat (civilMonth (dayFromTime t2)).toNat
    (civilDay (dayFromTime t1)).toNat (civilDay (dayFromTime t2)).toNat
    (hourFromTime t1).toNat (hourFromTime t2).toNat
    (minFromTime t1).toNat (minFromTime t2).toNat
    (by omega) (by omega) (by omega) (by omega) (by omega)
    (by omega) (by omega) (by omega) (by omega) (by omega)
  obtain ⟨hblt21, _⟩ := blocks5_lt_eq
    (civilYear (dayFromTime t2)).toNat (civilYear (dayFromTime t1)).toNat
    (civilMonth (dayFromTime t2)).toNat (civilMonth (dayFromTime t1)).toNat
    (civilDay (dayFromTime t2)).toNat (civilDay (dayFromTime t1)).toNat
    (hourFromTime t2).toNat (hourFromTime t1).toNat
    (minFromTime t2).toNat (minFromTime t1).toNat
    (by omega) (by omega) (by omega) (by omega) (by omega)
    (by omega) (by omega) (by omega) (by omega) (by omega)
  rw [formatMinute_eq_blocks t1 h1a h1b, formatMinute_eq_blocks t2 h2a h2b,
    strLt_iff_charListLtb, strMk_eq_iff, hblt12, hbeq]
  rcases lt_trichotomy (t1 / 60000) (t2 / 60000) with hc | hc | hc
  · have hP := minute_tuple_lt t1 t2 hc
    constructor
    · constructor
      · intro _; exact hc
      · intro _; omega
    · constructor
      · intro hE; omega
      · intro hE; omega
  · obtain ⟨he1, he2, he3⟩ := minute_fields_eq t1 t2 hc
    obtain ⟨hy, hm, hd⟩ := civil_congr (dayFromTime t1) (dayFromTime t2) he1
    constructor
    · constructor
      · intro hE; omega
      · intro hE; omega
    · constructor
      · intro _; exact hc
      · intro _; omega
  · have hP := minute_tuple_lt t2 t1 hc
    constructor
    · constructor
      · intro hE; omega
      · intro hE; omega
    · constructor
      · intro hE; omega
      · intro hE; omega

/-- C10: for instants rendering with four-digit years, the lexicographic
string comparison the source uses agrees with chronological comparison at
minute granularity, so the string-compared pick of endTime computes the
formatted chronological minimum of the two instants. -/
theorem c10_format_monotone (t1 t2 : Int)
    (h1a : 1000 ≤ civilYear (dayFromTime t1)) (h1b : civilYear (dayFromTime t1) ≤ 9999)
    (h2a : 1000 ≤ civilYear (dayFromTime t2)) (h2b : civilYear (dayFromTime t2) ≤ 9999) :
    (formatMinute t1 < formatMinute t2 ↔ t1 / 60000 < t2 / 60000) ∧
    ((if jsStrLtb (formatMinute t1) (formatMinute t2) then formatMinute t1
      else formatMinute t2) = formatMinute (min t1 t2)) := by
  obtain ⟨hlt, heq⟩ := formatMinute_lt_iff t1 t2 h1a h1b h2a h2b
  refine ⟨hlt, ?_⟩
  rcases lt_trichotomy (t1 / 60000) (t2 / 60000) with hc | hc | hc
  · rw [if_pos ((jsStrLtb_iff _ _).mpr (hlt.mpr hc)),
      min_eq_left (by omega : t1 ≤ t2)]
  · have hnb : ¬ jsStrLtb (formatMinute t1) (formatMinute t2) = true := by
      intro hb
      have := hlt.mp ((jsStrLtb_iff _ _).mp hb)
      omega
    rw [if_neg hnb]
    rcases le_total t1 t2 with h' | h'
    · rw [min_eq_left h']
      exact (heq.mpr hc).symm
    · rw [min_eq_right h']
  · have hnb : ¬ jsStrLtb (formatMinute t1) (formatMinute t2) = true := by
      intro hb
      have := hlt.mp ((jsStrLtb_iff _ _).mp hb)
      omega
    rw [if_neg hnb, min_eq_right (by omega : t2 ≤ t1)]

/-- Witness for C10 at two concrete 2023 instants. -/
theorem c10_witness :
    ((formatMinute 1674710624873 < formatMinute 1674800000000 ↔
      (1674710624873 : Int) / 60000 < 1674800000000 / 60000) ∧
     ((if jsStrLtb (formatMinute 1674710624873) (formatMinute 1674800000000)
       then formatMinute 1674710624873 else formatMinute 1674800000000) =
        formatMinute (min 1674710624873 1674800000000))) :=
  c10_format_monotone 1674710624873 1674800000000
    (by decide) (by decide) (by decide) (by decide)

/-! ## Calibration of the time embedding against known instants

Spot checks anchoring `jsTimeMs`, the calendar conversion and the
formatter to well-known epoch values: 2023-01-01T00:00Z = 1672531200000,
leap day 2024-02-29, the constructor's month rollover, and the example
values of the source's doc comments. -/

theorem calib_jsTimeMs_2023 : jsTimeMs 2023 0 1 0 0 0 0 = 1672531200000 := by decide

theorem calib_jsTimeMs_leap_day : jsTimeMs 2024 1 29 0 0 0 0 = 1709164800000 := by decide

theorem calib_month_rollover : jsTimeMs 2023 12 1 0 0 0 0 = jsTimeMs 2024 0 1 0 0 0 0 := by
  decide

theorem calib_format_leap_day : formatMinute 1709164800000 = "202402290000" := by decide

theorem calib_format_epoch : formatMinute 0 = "197001010000" := by decide

theorem calib_parse_example :
    convertTimestampToDate "20230126052344873" = some 1674710624873 := by decide

theorem calib_format_parse_roundtrip : formatMinute 1674710624873 = "202301260523" := by
  decide

theorem calib_parse_not_a_date : convertTimestampToDate "not-a-date" = none := by decide

theorem calib_window_clamped_to_now :
    resolveWindow "20230126052344873" 1674721424873 =
      .ok ("202301260523", "202301260823") := rfl

theorem calib_window_ten_hours :
    resolveWindow "20230126052344873" 1674800000000 =
      .ok ("202301260523", "202301261523") := rfl

theorem calib_pipeline_success :
    getImageAndInference demoEnv "dev" "20230126050000000" (some 2) =
      .ok [{ image := "data:image/jpg;base64,BBB", inferenceData := "[payload:UEFZ]",
             timestamp := "20230126053344873" },
           { image := "data:image/jpg;base64,AAA", inferenceData := "[payload:UEFZ]",
             timestamp := "20230126052344873" }] := rfl

theorem calib_handler_405 :
    handler demoEnv ⟨"POST", ⟨some "dev", none, none⟩⟩ =
      (405, .message "The API server only accepts GET requests.") := rfl

theorem calib_handler_500_bad_dir :
    handler demoEnv ⟨"GET", ⟨some "dev", some "not-a-date", none⟩⟩ =
      (500, .message dirNameErrMsg) := rfl

end CheckDataTool
